import Mathlib

/-!
Verification development for the Smart Diet Analyzer application
(src/app.py): a shallow embedding of its core functions —
image re-encoding (process_image), PDF report generation
(generate_pdf_content), the remote inference call
(generate_ai_analysis) and the session-state controller logic of
render_sidebar / render_main_content — together with theorems about
them.

External collaborators (the PIL image library, the reportlab document
builder, the Groq chat-completion client) are modelled as explicit
function parameters: a PIL decoder is a function from byte buffers to
an optional decoded image, the document builder is a function from a
flowable list to an optional byte buffer (absence modelling a raised
exception), and the chat client is a function from a request to an
Except value.  Bytes are modelled as List Nat; calls to st.error are
modelled as an explicit error log of type List ErrMsg (each
constructor names the error site in app.py, not the exact message
text).
-/

/-- Error messages reported through st.error, identified by call site. -/
inductive ErrMsg where
  | imageProcessingError
  | logoProcessingError
  | pdfGenerationFailed
  | apiError
deriving DecidableEq, Repr

/-- The standard base64 alphabet, as used by Python's base64 module. -/
def b64Alphabet : List Char :=
  "ABCDEFGHIJKLMNOPQRSTUVWXYZabcdefghijklmnopqrstuvwxyz0123456789+/".toList

/-- The base64 digit character of a sextet value. -/
def b64Char (n : Nat) : Char := b64Alphabet.getD n 'A'

/-- Base64-encode a byte list (model of base64.b64encode): groups of three
bytes become four digit characters, with '=' padding on a short final
group. -/
def b64encodeBytes : List Nat → List Char
  | b1 :: b2 :: b3 :: rest =>
      let n := b1 * 65536 + b2 * 256 + b3
      b64Char (n / 262144) :: b64Char (n / 4096 % 64) ::
        b64Char (n / 64 % 64) :: b64Char (n % 64) :: b64encodeBytes rest
  | [b1, b2] =>
      let n := b1 * 65536 + b2 * 256
      [b64Char (n / 262144), b64Char (n / 4096 % 64), b64Char (n / 64 % 64), '=']
  | [b1] =>
      let n := b1 * 65536
      [b64Char (n / 262144), b64Char (n / 4096 % 64), '=', '=']
  | [] => []

/-- Base64-encode a byte list to a string, as base64.b64encode(...).decode. -/
def b64encode (bs : List Nat) : String := String.mk (b64encodeBytes bs)

/-- The sextet value of a base64 digit character, none for a character
outside the alphabet. -/
def b64CharVal (c : Char) : Option Nat :=
  if 'A' ≤ c ∧ c ≤ 'Z' then some (c.toNat - 65)
  else if 'a' ≤ c ∧ c ≤ 'z' then some (c.toNat - 97 + 26)
  else if '0' ≤ c ∧ c ≤ '9' then some (c.toNat - 48 + 52)
  else if c = '+' then some 62
  else if c = '/' then some 63
  else none

/-- Base64-decode a character list (model of base64.b64decode): four digit
characters become three bytes; '=' padding ends the input; invalid input
yields none, modelling the binascii error raised by Python. -/
def b64decodeChars : List Char → Option (List Nat)
  | [] => some []
  | c1 :: c2 :: c3 :: c4 :: rest =>
      match b64CharVal c1, b64CharVal c2 with
      | some v1, some v2 =>
          if c3 = '=' then
            if c4 = '=' ∧ rest = [] then some [v1 * 4 + v2 / 16] else none
          else
            match b64CharVal c3 with
            | some v3 =>
                if c4 = '=' then
                  if rest = [] then
                    some [v1 * 4 + v2 / 16, v2 % 16 * 16 + v3 / 4]
                  else none
                else
                  match b64CharVal c4 with
                  | some v4 =>
                      match b64decodeChars rest with
                      | some bs =>
                          some ([v1 * 4 + v2 / 16, v2 % 16 * 16 + v3 / 4,
                            v3 % 4 * 64 + v4] ++ bs)
                      | none => none
                  | none => none
            | none => none
      | _, _ => none
  | _ => none

/-- Base64-decode a string to bytes (model of base64.b64decode). -/
def b64decode (s : String) : Option (List Nat) := b64decodeChars s.toList

/-- Model of a PIL image as returned by Image.open: its detected format
(none when PIL cannot determine one) and its pixel dimensions. -/
structure PILImage where
  format : Option String
  width : Nat
  height : Nat
deriving DecidableEq, Repr

/-- The format string used by process_image: img.format or 'PNG'.  Python's
`or` falls back on a missing format and also on an empty format string. -/
def formatOrPNG (img : PILImage) : String :=
  match img.format with
  | some f => if f = "" then "PNG" else f
  | none => "PNG"

/-- Embedding of process_image (src/app.py lines 58-68), parametrized by
the external PIL operations: decode models Image.open (none models a
raised decode exception) and save models img.save into a fresh buffer
with the chosen format (none models a raised save exception, as for
formats PIL reads but cannot write).  Both calls sit inside the same
try, so either failure is caught by the except branch: the error is
reported and None returned.  Returns the optional (base64 string,
format) pair together with the st.error log. -/
def process_image (decode : List Nat → Option PILImage)
    (save : PILImage → String → Option (List Nat))
    (uploaded_file : List Nat) : Option (String × String) × List ErrMsg :=
  match decode uploaded_file with
  | some img =>
      let fmt := formatOrPNG img
      match save img fmt with
      | some bytes => (some (b64encode bytes, fmt), [])
      | none => (none, [ErrMsg.imageProcessingError])
  | none => (none, [ErrMsg.imageProcessingError])

/-- A reportlab flowable, as appended to the story list in
generate_pdf_content: a ReportLabImage with computed display width and
height, a Spacer, or a Paragraph with its style name. -/
inductive Flowable where
  | rlimage (data : List Nat) (width : Rat) (height : Rat)
  | spacer (w : Rat) (h : Rat)
  | paragraph (text : String) (style : String)
deriving DecidableEq, Repr

/-- Model of an io.BytesIO buffer: its content (the rendered document,
modelled at character level) and the current stream position. -/
structure BytesBuffer where
  data : List Char
  pos : Nat
deriving DecidableEq, Repr

/-- Modelled from the behavior of the external reportlab library: the
rendering of one flowable inside the built document.  A paragraph
contributes its style tag and its text; a spacer contributes vertical
space; an image contributes an image object. -/
def renderFlowable : Flowable → List Char
  | Flowable.rlimage _ _ _ => "[image]".toList
  | Flowable.spacer _ _ => "\n\n".toList
  | Flowable.paragraph text style =>
      ('[' :: style.toList ++ [']']) ++ text.toList ++ ['\n']

/-- Modelled from the behavior of the external reportlab library: a
document builder (SimpleDocTemplate.build) that always succeeds,
serializing the flowables of the story in order into the buffer. -/
def buildModel (story : List Flowable) : Option (List Char) :=
  some (story.map renderFlowable).flatten

/-- The logo part of the PDF story (src/app.py lines 77-92): decode the
base64 logo, open it with PIL, scale it to a maximum width of 150
preserving the aspect ratio, and append the image and a spacer.  Any
exception (bad base64, undecodable image) is caught: the story part is
empty and a logo-processing error is reported. -/
def logoStory (decode : List Nat → Option PILImage)
    (logo_b64 : String) : List Flowable × List ErrMsg :=
  match b64decode logo_b64 with
  | none => ([], [ErrMsg.logoProcessingError])
  | some logo_data =>
      match decode logo_data with
      | none => ([], [ErrMsg.logoProcessingError])
      | some logo_img =>
          let aspect : Rat := (logo_img.height : Rat) / (logo_img.width : Rat)
          let img_width : Nat := min logo_img.width 150
          let img_height : Rat := (img_width : Rat) * aspect
          ([Flowable.rlimage logo_data (img_width : Rat) img_height,
            Flowable.spacer 1 12], [])

/-- The full story assembled by generate_pdf_content when the two
Paragraph constructions of lines 95-99 succeed: the logo part (only when
logo_b64 is present and non-empty — Python's `if logo_b64:` also skips
an empty string) followed by the title paragraph, a spacer and the
report text with newlines replaced by br tags.  The Paragraph
constructions themselves can raise; generate_pdf_content_exc below
tracks that, while this story is their successful outcome. -/
def buildStory (decode : List Nat → Option PILImage)
    (report_text : String) (logo_b64 : Option String) :
    List Flowable × List ErrMsg :=
  let lp :=
    match logo_b64 with
    | some s => if s = "" then ([], []) else logoStory decode s
    | none => ([], [])
  (lp.1 ++ [Flowable.paragraph "<b>Nutrition Analysis Report</b>" "Title",
    Flowable.spacer 1 12,
    Flowable.paragraph (report_text.replace "\n" "<br/>") "BodyText"],
   lp.2)

/-- Embedding of generate_pdf_content (src/app.py lines 70-107) for
executions in which the Paragraph constructions of lines 95-99 succeed
(see generate_pdf_content_exc for the raising executions), parametrized
by the external PIL decoder and the external reportlab builder (none
models doc.build raising, caught by the except branch, leaving the
buffer unwritten).  The buffer is rewound with seek(0) before being
returned, so its position is always 0. -/
def generate_pdf_content (decode : List Nat → Option PILImage)
    (build : List Flowable → Option (List Char))
    (report_text : String) (logo_b64 : Option String) :
    BytesBuffer × List ErrMsg :=
  let sp := buildStory decode report_text logo_b64
  match build sp.1 with
  | some content => (⟨content, 0⟩, sp.2)
  | none => (⟨[], 0⟩, sp.2 ++ [ErrMsg.pdfGenerationFailed])

/-- Exception-tracking embedding of generate_pdf_content: the two
Paragraph constructions at src/app.py lines 95-99 happen outside both
try blocks, and reportlab's Paragraph parses its markup eagerly at
construction, raising ValueError on malformed markup.  The external
constructor is the mkPar parameter; its Except.error models that raise,
which escapes generate_pdf_content uncaught — hence the Except result.
The title Paragraph is constructed first, then the body Paragraph, in
the source's evaluation order; the logo block has already run (and
possibly reported its caught error) before either. -/
def generate_pdf_content_exc (decode : List Nat → Option PILImage)
    (mkPar : String → String → Except String Flowable)
    (build : List Flowable → Option (List Char))
    (report_text : String) (logo_b64 : Option String) :
    Except String (BytesBuffer × List ErrMsg) :=
  let lp :=
    match logo_b64 with
    | some s => if s = "" then ([], []) else logoStory decode s
    | none => ([], [])
  match mkPar "<b>Nutrition Analysis Report</b>" "Title" with
  | Except.error e => Except.error e
  | Except.ok title_par =>
      match mkPar (report_text.replace "\n" "<br/>") "BodyText" with
      | Except.error e => Except.error e
      | Except.ok body_par =>
          match build (lp.1 ++ [title_par, Flowable.spacer 1 12, body_par]) with
          | some content => Except.ok (⟨content, 0⟩, lp.2)
          | none => Except.ok (⟨[], 0⟩, lp.2 ++ [ErrMsg.pdfGenerationFailed])

/-- Modelled from the spec: a Paragraph constructor whose markup parsing
always accepts, the behavior the spec's Report Renderer contract
assumes.  Under it generate_pdf_content_exc never raises and coincides
with generate_pdf_content. -/
def mkParModel (text style : String) : Except String Flowable :=
  Except.ok (Flowable.paragraph text style)

/-- The model name sent with every request (src/app.py line 25). -/
def MODEL_NAME : String := "llama-3.2-11b-vision-preview"

/-- The fixed decoding parameters of every request. -/
structure ModelSettings where
  temperature : Rat
  max_tokens : Nat
  top_p : Rat
deriving DecidableEq, Repr

/-- Embedding of MODEL_SETTINGS (src/app.py lines 26-30). -/
def MODEL_SETTINGS : ModelSettings :=
  { temperature := 0.2, max_tokens := 400, top_p := 0.5 }

/-- The fixed instructional prompt of generate_ai_analysis, after
textwrap.dedent has stripped the common four-space indentation of the
source literal. -/
def vision_prompt : String :=
  "\nAs an expert nutritionist with advanced image analysis capabilities, analyze the provided food image:\n\n1. Identify all visible food items\n2. Estimate calorie content considering:\n   - Portion size\n   - Cooking method\n   - Food density\n3. Mark estimates as \"approximate\" when assumptions are needed\n4. Calculate total meal calories\n\nOutput format:\n- Food Item 1: [Name] – Estimated Calories: [value] kcal\n- ...\n- **Total Estimated Calories:** [value] kcal\n\nInclude confidence levels for unclear images and specify limitations.\n"

/-- The single chat-completion request built by generate_ai_analysis: the
model identifier, one user message whose content mixes the prompt text
and the data-URI image reference, and the decoding parameters spread
from MODEL_SETTINGS. -/
structure ChatRequest where
  model : String
  role : String
  prompt_text : String
  image_url : String
  temperature : Rat
  max_tokens : Nat
  top_p : Rat
deriving DecidableEq, Repr

/-- A chat message in a completion response choice. -/
structure ChatMessage where
  content : String
deriving DecidableEq, Repr

/-- One completion choice of a response. -/
structure ChatChoice where
  message : ChatMessage
deriving DecidableEq, Repr

/-- A chat-completion response: its list of choices. -/
structure ChatResponse where
  choices : List ChatChoice
deriving DecidableEq, Repr

/-- The request value generate_ai_analysis passes to
client.chat.completions.create (src/app.py lines 131-143): the data-URI
image reference is data:image/<format lowercased>;base64,<payload>. -/
def buildRequest (image_b64 : String) (img_format : String) : ChatRequest :=
  { model := MODEL_NAME
    role := "user"
    prompt_text := vision_prompt
    image_url := "data:image/" ++ img_format.toLower ++ ";base64," ++ image_b64
    temperature := MODEL_SETTINGS.temperature
    max_tokens := MODEL_SETTINGS.max_tokens
    top_p := MODEL_SETTINGS.top_p }

/-- Embedding of generate_ai_analysis (src/app.py lines 109-147),
parametrized by the external Groq client, a function from the request to
either a response or a raised exception (Except.error).  Everything
inside the try block is covered by the except branch: a raised call, and
also the IndexError of response.choices[0] on an empty choice list,
yield none and an API error report; on success the first choice's
message content is returned verbatim. -/
def generate_ai_analysis (client : ChatRequest → Except String ChatResponse)
    (image_b64 : String) (img_format : String) : Option String × List ErrMsg :=
  match client (buildRequest image_b64 img_format) with
  | Except.ok resp =>
      match resp.choices with
      | c :: _ => (some c.message.content, [])
      | [] => (none, [ErrMsg.apiError])
  | Except.error _ => (none, [ErrMsg.apiError])

/-- The session-state slot analysis_result: absent or one text. -/
def SessionSlot : Type := Option String

/-- Reading the slot: st.session_state.get of the fixed key. -/
def session_get (s : SessionSlot) : Option String := s

/-- Writing the slot: the assignment st.session_state.analysis_result =
analysis overwrites any prior value. -/
def session_set (_ : SessionSlot) (v : String) : SessionSlot := some v

/-- Clearing the slot: del st.session_state.analysis_result. -/
def session_clear (_ : SessionSlot) : SessionSlot := none

/-- Whether render_main_content shows the result panel (src/app.py line
164): the walrus-if is Python truthiness, so an absent slot and an
empty-string slot both hide the panel. -/
def showsResultPanel (s : SessionSlot) : Bool :=
  match session_get s with
  | some a => a != ""
  | none => false

/-- The analyze flow of render_sidebar (src/app.py lines 201-207) as a
state transformer on the slot: process the image; when that succeeds run
the remote analysis; store the result only when it is truthy (a
non-empty text).  On any failure the slot is left unchanged. -/
def analyzeAction (decode : List Nat → Option PILImage)
    (save : PILImage → String → Option (List Nat))
    (client : ChatRequest → Except String ChatResponse)
    (s : SessionSlot) (uploaded : List Nat) : SessionSlot × List ErrMsg :=
  match process_image decode save uploaded with
  | (some img_data, errs) =>
      match generate_ai_analysis client img_data.1 img_data.2 with
      | (some analysis, errs2) =>
          (if analysis ≠ "" then session_set s analysis else s, errs ++ errs2)
      | (none, errs2) => (s, errs ++ errs2)
  | (none, errs) => (s, errs)

/-- The result of one analysis attempt, viewed only through what may be
stored: some text when both process_image and generate_ai_analysis
succeed and the text is truthy, none otherwise. -/
def analysisOutcome (decode : List Nat → Option PILImage)
    (save : PILImage → String → Option (List Nat))
    (client : ChatRequest → Except String ChatResponse)
    (uploaded : List Nat) : Option String :=
  match process_image decode save uploaded with
  | (some img_data, _) =>
      match generate_ai_analysis client img_data.1 img_data.2 with
      | (some analysis, _) => if analysis ≠ "" then some analysis else none
      | (none, _) => none
  | (none, _) => none

/-- A user action that mutates the session slot: triggering an analysis of
an uploaded file, or pressing the clear button. -/
inductive Event where
  | analyze (uploaded : List Nat)
  | clear
deriving DecidableEq, Repr

/-- One controller step on the session slot. -/
def stepEvent (decode : List Nat → Option PILImage)
    (save : PILImage → String → Option (List Nat))
    (client : ChatRequest → Except String ChatResponse)
    (s : SessionSlot) : Event → SessionSlot
  | Event.analyze u => (analyzeAction decode save client s u).1
  | Event.clear => session_clear s

/-- The session slot reached from the initial absent slot by a sequence of
user actions. -/
def runEvents (decode : List Nat → Option PILImage)
    (save : PILImage → String → Option (List Nat))
    (client : ChatRequest → Except String ChatResponse)
    (evs : List Event) : SessionSlot :=
  evs.foldl (stepEvent decode save client) none

/-- The accumulator step for the text of the most recent successful
analysis in a trace: a successful analyze event replaces it, every other
event keeps it. -/
def successStep (decode : List Nat → Option PILImage)
    (save : PILImage → String → Option (List Nat))
    (client : ChatRequest → Except String ChatResponse)
    (acc : Option String) : Event → Option String
  | Event.analyze u =>
      match analysisOutcome decode save client u with
      | some a => some a
      | none => acc
  | Event.clear => acc

/-- The text produced by the most recent successful analysis call of a
trace, none when no analysis succeeded. -/
def lastSuccess (decode : List Nat → Option PILImage)
    (save : PILImage → String → Option (List Nat))
    (client : ChatRequest → Except String ChatResponse)
    (evs : List Event) : Option String :=
  evs.foldl (successStep decode save client) none

/-- The relation between the session slot and the most recent successful
analysis text: the slot is absent, or holds exactly that non-empty
text. -/
def slotInv (s acc : Option String) : Prop :=
  s = none ∨ ∃ a, s = some a ∧ a ≠ "" ∧ acc = some a

theorem analyzeAction_fst (decode : List Nat → Option PILImage)
    (save : PILImage → String → Option (List Nat))
    (client : ChatRequest → Except String ChatResponse)
    (s : SessionSlot) (u : List Nat) :
    (analyzeAction decode save client s u).1 =
      match analysisOutcome decode save client u with
      | some a => some a
      | none => s := by
  unfold analyzeAction analysisOutcome
  rcases hp : process_image decode save u with ⟨_ | id, errs⟩
  · simp
  · rcases hg : generate_ai_analysis client id.1 id.2 with ⟨_ | a, errs2⟩
    · simp [hg]
    · by_cases ha : a = "" <;> simp [ha, hg, session_set]

theorem analysisOutcome_ne_empty (decode : List Nat → Option PILImage)
    (save : PILImage → String → Option (List Nat))
    (client : ChatRequest → Except String ChatResponse)
    (u : List Nat) (a : String)
    (h : analysisOutcome decode save client u = some a) : a ≠ "" := by
  unfold analysisOutcome at h
  rcases hp : process_image decode save u with ⟨_ | id, errs⟩ <;> rw [hp] at h
  · simp at h
  · rcases hg : generate_ai_analysis client id.1 id.2 with ⟨_ | b, errs2⟩
    · simp [hg] at h
    · by_cases hb : b = "" <;> simp [hg, hb] at h
      subst h
      exact hb

theorem slotInv_step (decode : List Nat → Option PILImage)
    (save : PILImage → String → Option (List Nat))
    (client : ChatRequest → Except String ChatResponse)
    (s acc : Option String) (e : Event) (h : slotInv s acc) :
    slotInv (stepEvent decode save client s e)
      (successStep decode save client acc e) := by
  cases e with
  | clear => exact Or.inl rfl
  | analyze u =>
      have hf := analyzeAction_fst decode save client s u
      simp only [stepEvent, successStep]
      rw [hf]
      rcases ho : analysisOutcome decode save client u with _ | a
      · exact h
      · exact Or.inr ⟨a, rfl, analysisOutcome_ne_empty decode save client u a ho, rfl⟩

theorem slotInv_foldl (decode : List Nat → Option PILImage)
    (save : PILImage → String → Option (List Nat))
    (client : ChatRequest → Except String ChatResponse)
    (evs : List Event) :
    ∀ s acc : Option String, slotInv s acc →
      slotInv (evs.foldl (stepEvent decode save client) s)
        (evs.foldl (successStep decode save client) acc) := by
  induction evs with
  | nil => intro s acc h; exact h
  | cons e evs ih =>
      intro s acc h
      simp only [List.foldl_cons]
      exact ih _ _ (slotInv_step decode save client s acc e h)

/-- Claim C1: in every reachable session state the analysis-result slot is
absent or holds exactly the complete non-empty text of the most recent
successful analysis call, and whenever process_image or
generate_ai_analysis fails to produce a storable result the analyze flow
leaves the slot unchanged. -/
theorem analysis_slot_invariant (decode : List Nat → Option PILImage)
    (save : PILImage → String → Option (List Nat))
    (client : ChatRequest → Except String ChatResponse)
    (evs : List Event) :
    (runEvents decode save client evs = none ∨
      ∃ a, runEvents decode save client evs = some a ∧ a ≠ "" ∧
        lastSuccess decode save client evs = some a) ∧
    ∀ (s : SessionSlot) (u : List Nat),
      analysisOutcome decode save client u = none →
      (analyzeAction decode save client s u).1 = s := by
  constructor
  · exact slotInv_foldl decode save client evs none none (Or.inl rfl)
  · intro s u h
    rw [analyzeAction_fst decode save client s u, h]

/-- Witness for C1: with a decoder that rejects the upload, an analyze
attempt leaves a previously stored result untouched. -/
theorem analysis_slot_invariant_witness :
    (analyzeAction (fun _ => none) (fun _ _ => none)
      (fun _ => Except.error "down") (some "kept") [0]).1 = some "kept" :=
  (analysis_slot_invariant (fun _ => none) (fun _ _ => none)
    (fun _ => Except.error "down") []).2 (some "kept") [0] rfl

/-- Claim C2: the session store obeys the slot laws: after set(X) get
returns X; after clear get returns absent; after set(X) then set(Y) get
returns Y, overwriting without history. -/
theorem session_slot_laws (s : SessionSlot) (X Y : String) :
    session_get (session_set s X) = some X ∧
    session_get (session_clear s) = none ∧
    session_get (session_set (session_set s X) Y) = some Y :=
  ⟨rfl, rfl, rfl⟩

/-- Counterexample for C3 as stated: a buffer that decodes to a valid
image need not yield a pair.  With a decoder detecting a format PIL
reads but cannot write back (such as PSD), img.save raises inside the
try and process_image returns the no-result signal instead. -/
theorem process_image_unsavable_counterexample :
    process_image (fun _ => some ⟨some "PSD", 1, 1⟩) (fun _ _ => none) [0] =
      (none, [ErrMsg.imageProcessingError]) := by
  decide

/-- Claim C3 (amended): whenever the decoder yields an image AND the
re-serialization in the detected format (PNG fallback) succeeds,
process_image returns the pair of the base64 encoding of those
re-serialized bytes and that format; when the re-serialization raises,
the error is caught and reported and the no-result signal returned. -/
theorem process_image_encodes_when_savable (decode : List Nat → Option PILImage)
    (save : PILImage → String → Option (List Nat)) (buf : List Nat)
    (img : PILImage) (h : decode buf = some img) :
    (∀ bytes, save img (formatOrPNG img) = some bytes →
      process_image decode save buf =
        (some (b64encode bytes, formatOrPNG img), [])) ∧
    (save img (formatOrPNG img) = none →
      process_image decode save buf = (none, [ErrMsg.imageProcessingError])) := by
  constructor
  · intro bytes hs
    unfold process_image
    rw [h]
    simp [hs]
  · intro hs
    unfold process_image
    rw [h]
    simp [hs]

/-- Witness for C3: a decoder detecting a JPEG whose re-serialization is
the bytes 1, 2, 3 yields their base64 encoding AQID paired with JPEG. -/
theorem process_image_encodes_when_savable_witness :
    process_image (fun _ => some ⟨some "JPEG", 2, 2⟩)
      (fun _ _ => some [1, 2, 3]) [0] = (some ("AQID", "JPEG"), []) := by
  rw [(process_image_encodes_when_savable (fun _ => some ⟨some "JPEG", 2, 2⟩)
    (fun _ _ => some [1, 2, 3]) [0] ⟨some "JPEG", 2, 2⟩ rfl).1 [1, 2, 3] rfl]
  decide

/-- Claim C4: whenever the decoder rejects the byte buffer, process_image
reports the error and returns the no-result signal, and the analyze flow
aborts: the session slot is unchanged and no further effect happens. -/
theorem process_image_failure (decode : List Nat → Option PILImage)
    (save : PILImage → String → Option (List Nat))
    (client : ChatRequest → Except String ChatResponse)
    (s : SessionSlot) (buf : List Nat) (h : decode buf = none) :
    process_image decode save buf = (none, [ErrMsg.imageProcessingError]) ∧
    analyzeAction decode save client s buf = (s, [ErrMsg.imageProcessingError]) := by
  constructor
  · unfold process_image
    rw [h]
  · unfold analyzeAction process_image
    rw [h]

/-- Witness for C4: a decoder rejecting everything makes process_image
return none with the error reported, leaving the slot untouched. -/
theorem process_image_failure_witness :
    process_image (fun _ => none) (fun _ _ => none) [7] =
      (none, [ErrMsg.imageProcessingError]) ∧
    analyzeAction (fun _ => none) (fun _ _ => none)
      (fun _ => Except.ok ⟨[]⟩) (some "old") [7] =
      (some "old", [ErrMsg.imageProcessingError]) :=
  process_image_failure (fun _ => none) (fun _ _ => none)
    (fun _ => Except.ok ⟨[]⟩) (some "old") [7] rfl

/-- Claim C10: when the remote call succeeds but its text content is
empty, the analyze flow does not write the slot, an absent slot still
shows no result panel afterwards, and anything the slot does hold was
already there. -/
theorem empty_analysis_not_stored (decode : List Nat → Option PILImage)
    (save : PILImage → String → Option (List Nat))
    (client : ChatRequest → Except String ChatResponse)
    (s : SessionSlot) (u : List Nat)
    (img_data : String × String) (errs errs2 : List ErrMsg)
    (hp : process_image decode save u = (some img_data, errs))
    (hg : generate_ai_analysis client img_data.1 img_data.2 = (some "", errs2)) :
    (analyzeAction decode save client s u).1 = s ∧
    (s = none → showsResultPanel (analyzeAction decode save client s u).1 = false) ∧
    ∀ a, (analyzeAction decode save client s u).1 = some a → s = some a := by
  have h1 : (analyzeAction decode save client s u).1 = s := by
    unfold analyzeAction
    rw [hp]
    simp [hg]
  refine ⟨h1, fun hs => ?_, fun a ha => ?_⟩
  · rw [h1, hs]
    rfl
  · rw [h1] at ha
    exact ha

/-- Witness for C10: a client answering with an empty text leaves an
absent slot absent. -/
theorem empty_analysis_not_stored_witness :
    (analyzeAction (fun _ => some ⟨some "PNG", 1, 1⟩) (fun _ _ => some [])
      (fun _ => Except.ok ⟨[⟨⟨""⟩⟩]⟩) none [0]).1 = none :=
  (empty_analysis_not_stored (fun _ => some ⟨some "PNG", 1, 1⟩)
    (fun _ _ => some [])
    (fun _ => Except.ok ⟨[⟨⟨""⟩⟩]⟩) none [0] ("", "PNG") [] [] rfl rfl).1

/-- Claim C5: with no logo, the generated document is non-empty, reports
no error, and consists of the bold title "Nutrition Analysis Report"
followed (after spacing) by the report text with line breaks converted
to br paragraph breaks. -/
theorem pdf_title_and_body (decode : List Nat → Option PILImage) (T : String) :
    (generate_pdf_content decode buildModel T none).1.data =
      "[Title]<b>Nutrition Analysis Report</b>\n\n\n[BodyText]".toList ++
        (T.replace "\n" "<br/>").toList ++ ['\n'] ∧
    (generate_pdf_content decode buildModel T none).1.data ≠ [] ∧
    (generate_pdf_content decode buildModel T none).2 = [] := by
  refine ⟨?_, ?_, ?_⟩ <;>
    simp [generate_pdf_content, buildStory, buildModel, renderFlowable]

theorem generate_pdf_content_unfold (decode : List Nat → Option PILImage)
    (build : List Flowable → Option (List Char)) (T : String)
    (logo : Option String) :
    generate_pdf_content decode build T logo =
      match build (buildStory decode T logo).1 with
      | some content => (⟨content, 0⟩, (buildStory decode T logo).2)
      | none =>
          (⟨[], 0⟩, (buildStory decode T logo).2 ++ [ErrMsg.pdfGenerationFailed]) :=
  rfl

theorem buildStory_logo_failure (decode : List Nat → Option PILImage)
    (T s : String) (bs : List Nat) (hs : s ≠ "")
    (hb : b64decode s = some bs) (hd : decode bs = none) :
    buildStory decode T (some s) =
      ((buildStory decode T none).1, [ErrMsg.logoProcessingError]) := by
  have hls : logoStory decode s = ([], [ErrMsg.logoProcessingError]) := by
    unfold logoStory
    rw [hb]
    simp [hd]
  simp [buildStory, hs, hls]

/-- Claim C6: a logo string whose bytes are valid base64 but do not decode
as an image degrades gracefully: the logo error is reported and the
produced buffer is identical to the logo-less rendering. -/
theorem pdf_logo_failure_degrades (decode : List Nat → Option PILImage)
    (build : List Flowable → Option (List Char)) (T s : String)
    (bs : List Nat) (hs : s ≠ "") (hb : b64decode s = some bs)
    (hd : decode bs = none) :
    (generate_pdf_content decode build T (some s)).1 =
      (generate_pdf_content decode build T none).1 ∧
    (generate_pdf_content decode build T (some s)).2 =
      ErrMsg.logoProcessingError :: (generate_pdf_content decode build T none).2 := by
  have hb2 := buildStory_logo_failure decode T s bs hs hb hd
  constructor <;>
    · rw [generate_pdf_content_unfold decode build T (some s),
        generate_pdf_content_unfold decode build T none, hb2]
      dsimp only
      cases build (buildStory decode T none).1 <;> simp [buildStory]

/-- Witness for C6: the logo string AAAA is valid base64 for three zero
bytes, which a decoder may reject; the document equals the logo-less
one and the logo error is logged. -/
theorem pdf_logo_failure_degrades_witness :
    (generate_pdf_content (fun _ => none) buildModel "hi" (some "AAAA")).1 =
      (generate_pdf_content (fun _ => none) buildModel "hi" none).1 ∧
    (generate_pdf_content (fun _ => none) buildModel "hi" (some "AAAA")).2 =
      ErrMsg.logoProcessingError ::
        (generate_pdf_content (fun _ => none) buildModel "hi" none).2 :=
  pdf_logo_failure_degrades (fun _ => none) buildModel "hi" "AAAA" [0, 0, 0]
    (by decide) (by decide) rfl

/-- Claim C7: the request generate_ai_analysis sends embeds the image as
the data URI data:image/<format lowercased>;base64,<payload> and carries
exactly temperature 0.2, top_p 0.5 and a 400-token cap; the function
consults its client only on that one request. -/
theorem request_is_as_specified (image_b64 img_format : String) :
    (buildRequest image_b64 img_format).image_url =
      "data:image/" ++ img_format.toLower ++ ";base64," ++ image_b64 ∧
    (buildRequest image_b64 img_format).temperature = (1 / 5 : Rat) ∧
    (buildRequest image_b64 img_format).top_p = (1 / 2 : Rat) ∧
    (buildRequest image_b64 img_format).max_tokens = 400 ∧
    ∀ c1 c2 : ChatRequest → Except String ChatResponse,
      c1 (buildRequest image_b64 img_format) =
        c2 (buildRequest image_b64 img_format) →
      generate_ai_analysis c1 image_b64 img_format =
        generate_ai_analysis c2 image_b64 img_format := by
  refine ⟨rfl, ?_, ?_, rfl, fun c1 c2 h => ?_⟩
  · show (0.2 : Rat) = 1 / 5
    norm_num
  · show (0.5 : Rat) = 1 / 2
    norm_num
  · unfold generate_ai_analysis
    rw [h]

/-- Witness for C7: two clients agreeing on the built request (one of them
keying on the model name) produce the same analysis result. -/
theorem request_is_as_specified_witness :
    generate_ai_analysis (fun _ => Except.error "boom") "PAYLOAD" "PNG" =
      generate_ai_analysis
        (fun r => if r.model = MODEL_NAME then Except.error "boom"
          else Except.ok ⟨[]⟩) "PAYLOAD" "PNG" :=
  (request_is_as_specified "PAYLOAD" "PNG").2.2.2.2
    (fun _ => Except.error "boom")
    (fun r => if r.model = MODEL_NAME then Except.error "boom"
      else Except.ok ⟨[]⟩)
    (by simp [buildRequest])

/-- Claim C8: a raised client call yields the no-result signal with an API
error reported; a successful call with at least one choice yields that
first choice's content verbatim with no error; an out-of-range first
choice (empty choice list) is likewise caught as an API error.  The
embedding is a total function, so no exception escapes. -/
theorem ai_analysis_error_handling
    (client : ChatRequest → Except String ChatResponse)
    (image_b64 img_format : String) :
    (∀ e, client (buildRequest image_b64 img_format) = Except.error e →
      generate_ai_analysis client image_b64 img_format =
        (none, [ErrMsg.apiError])) ∧
    (∀ resp c rest, client (buildRequest image_b64 img_format) = Except.ok resp →
      resp.choices = c :: rest →
      generate_ai_analysis client image_b64 img_format =
        (some c.message.content, [])) ∧
    (∀ resp, client (buildRequest image_b64 img_format) = Except.ok resp →
      resp.choices = [] →
      generate_ai_analysis client image_b64 img_format =
        (none, [ErrMsg.apiError])) := by
  refine ⟨fun e h => ?_, fun resp c rest h hc => ?_, fun resp h hc => ?_⟩
  · unfold generate_ai_analysis
    rw [h]
  · unfold generate_ai_analysis
    rw [h]
    simp [hc]
  · unfold generate_ai_analysis
    rw [h]
    simp [hc]

/-- Witness for C8: a client answering with one choice produces its text
verbatim without error. -/
theorem ai_analysis_error_handling_witness :
    generate_ai_analysis
      (fun _ => Except.ok ⟨[⟨⟨"Total: 200 kcal"⟩⟩]⟩) "p" "PNG" =
      (some "Total: 200 kcal", []) :=
  (ai_analysis_error_handling
    (fun _ => Except.ok ⟨[⟨⟨"Total: 200 kcal"⟩⟩]⟩) "p" "PNG").2.1
    ⟨[⟨⟨"Total: 200 kcal"⟩⟩]⟩ ⟨⟨"Total: 200 kcal"⟩⟩ [] rfl rfl

/-- Counterexample for C9 as stated: generate_pdf_content is not total at
its boundary.  The body Paragraph of line 98 is constructed outside both
try blocks, and a constructor that raises on the body paragraph — as
reportlab's eager markup parsing does when the report text holds
malformed markup such as an unclosed tag — makes the call raise uncaught
instead of returning a buffer. -/
theorem pdf_paragraph_raise_counterexample :
    generate_pdf_content_exc (fun _ => none)
      (fun text style => if style = "BodyText"
        then Except.error "paraparser: syntax error"
        else Except.ok (Flowable.paragraph text style))
      buildModel "x<b>" none = Except.error "paraparser: syntax error" := rfl

/-- Claim C9 (amended): when a Paragraph construction of lines 95-99
raises, that error escapes generate_pdf_content uncaught (title first,
then body); when both constructions succeed — in particular under the
always-accepting markup model — the function returns a buffer positioned
at offset 0, and a document build failure is only reported, leaving the
returned buffer empty rather than an error signal. -/
theorem pdf_boundary_behavior (decode : List Nat → Option PILImage)
    (mkPar : String → String → Except String Flowable)
    (build : List Flowable → Option (List Char)) (T : String)
    (logo : Option String) :
    (∀ e, mkPar "<b>Nutrition Analysis Report</b>" "Title" = Except.error e →
      generate_pdf_content_exc decode mkPar build T logo = Except.error e) ∧
    (∀ tp e, mkPar "<b>Nutrition Analysis Report</b>" "Title" = Except.ok tp →
      mkPar (T.replace "\n" "<br/>") "BodyText" = Except.error e →
      generate_pdf_content_exc decode mkPar build T logo = Except.error e) ∧
    generate_pdf_content_exc decode mkParModel build T logo =
      Except.ok (generate_pdf_content decode build T logo) ∧
    (generate_pdf_content decode build T logo).1.pos = 0 ∧
    (build (buildStory decode T logo).1 = none →
      (generate_pdf_content decode build T logo).1.data = [] ∧
      ErrMsg.pdfGenerationFailed ∈ (generate_pdf_content decode build T logo).2) := by
  refine ⟨fun e h => ?_, fun tp e ht hb => ?_, ?_, ?_, ?_⟩
  · unfold generate_pdf_content_exc
    simp only [h]
  · unfold generate_pdf_content_exc
    simp only [ht, hb]
  · unfold generate_pdf_content_exc generate_pdf_content mkParModel buildStory
    dsimp only
    split <;> rfl
  · unfold generate_pdf_content
    cases h : build (buildStory decode T logo).1 <;> simp [h]
  · intro h
    unfold generate_pdf_content
    simp [h]

/-- Witness for C9: a constructor rejecting the body paragraph makes the
whole call raise, applying the amended theorem concretely. -/
theorem pdf_boundary_behavior_witness :
    generate_pdf_content_exc (fun _ => none)
      (fun text style => if style = "BodyText"
        then Except.error "xml parser error"
        else Except.ok (Flowable.paragraph text style))
      buildModel "y<b>" none = Except.error "xml parser error" :=
  (pdf_boundary_behavior (fun _ => none)
    (fun text style => if style = "BodyText"
      then Except.error "xml parser error"
      else Except.ok (Flowable.paragraph text style))
    buildModel "y<b>" none).2.1
    (Flowable.paragraph "<b>Nutrition Analysis Report</b>" "Title")
    "xml parser error" rfl rfl
